import Mathlib

/-!
# Verification of the matrix-rust-sdk crypto core against its specification

This file gives a shallow embedding, in Lean 4, of the parts of the
repository that the specification's claims are about:

* the QR verification codec (`matrix_qrcode`),
* device records, local trust and cross-signing trust evaluation
  (`matrix_sdk_crypto/src/identities/device.rs`),
* the salamander double-ratchet session shell
  (`matrix_sdk_crypto/src/olm/salamander/session/mod.rs`),
* the SQLite crypto store (`src/crypto/store/sqlite.rs`).

Byte strings are `List Nat`, Rust `Result` is `Except`, Rust panics
(`todo!()`, `unwrap` on data that cannot parse) are `Option.none` at the
outermost level, and interior mutability is explicit state passing.
Components of the repository whose source is not included (the QR codec
implementation, the olm pickling primitives, the `double_ratchet`
submodule, `Utility::verify_json`) are modelled from the specification;
each such definition says so in its doc comment.
-/

namespace MatrixSdk

/-! ## QR verification codec

Modelled from the spec: the implementation (`types.rs`, `utils.rs` of
`matrix_qrcode`) is not part of the provided sources, only its byte-level
tests in `matrix_qrcode/src/lib.rs` are. The model follows §4.6 of the
specification, with the check order fixed by those tests: the header
bytes, the version byte and the mode byte are validated as soon as they
are read, before the remainder of the buffer is touched (the tests
demand `Version(1)` for the 8-byte input `b"MATRIX\x01\x03"`, `Mode(3)`
for `b"MATRIX\x02\x03"` and a read error for `b"MATRIX\x02\x02"`). -/

/-- Errors of the byte-level QR envelope decoder (spec §7, `DecodingError`). -/
inductive DecodingError where
  /-- The first six bytes are not the ASCII magic `"MATRIX"`. -/
  | header : DecodingError
  /-- The version byte is not `0x02`; carries the version that was read. -/
  | version (v : Nat) : DecodingError
  /-- The mode byte is not `0x00`, `0x01` or `0x02`. -/
  | mode (m : Nat) : DecodingError
  /-- The buffer ended before the field starting at the given offset. -/
  | read (offset : Nat) : DecodingError
  /-- Mode `0x00` and the flow identifier is not a valid room ID. -/
  | identifier (s : List Nat) : DecodingError
  /-- The shared secret is shorter than 8 bytes; carries the length. -/
  | sharedSecret (n : Nat) : DecodingError
deriving DecidableEq, Repr

/-- Errors of the QR envelope encoder (spec §7, `EncodingError`). -/
inductive EncodingError where
  /-- The flow identifier does not fit the two-byte length field. -/
  | tooLong : EncodingError
deriving DecidableEq, Repr

/-- The decoded QR verification envelope: a tagged union with three
variants, each carrying a flow identifier, two 32-byte keys and a
shared secret (spec §3, `QrVerificationMessage`). -/
inductive QrVerification where
  /-- Mode `0x00`: verifying another user; the flow id is a room ID. -/
  | verification (flow_id key_a key_b secret : List Nat) : QrVerification
  /-- Mode `0x01`: self-verification through the master key. -/
  | selfVerification (flow_id key_a key_b secret : List Nat) : QrVerification
  /-- Mode `0x02`: self-verification without a trusted master key. -/
  | selfVerificationNoMasterKey (flow_id key_a key_b secret : List Nat) : QrVerification
deriving DecidableEq, Repr

namespace QrVerification

/-- The ASCII bytes of the magic string `"MATRIX"`. -/
def magic : List Nat := [77, 65, 84, 82, 73, 88]

/-- The mode byte of each variant. -/
def modeByte : QrVerification → Nat
  | .verification .. => 0
  | .selfVerification .. => 1
  | .selfVerificationNoMasterKey .. => 2

/-- The flow identifier of an envelope. -/
def flowId : QrVerification → List Nat
  | .verification f _ _ _ => f
  | .selfVerification f _ _ _ => f
  | .selfVerificationNoMasterKey f _ _ _ => f

/-- The first key of an envelope. -/
def keyA : QrVerification → List Nat
  | .verification _ a _ _ => a
  | .selfVerification _ a _ _ => a
  | .selfVerificationNoMasterKey _ a _ _ => a

/-- The second key of an envelope. -/
def keyB : QrVerification → List Nat
  | .verification _ _ b _ => b
  | .selfVerification _ _ b _ => b
  | .selfVerificationNoMasterKey _ _ b _ => b

/-- The shared secret of an envelope. -/
def secret : QrVerification → List Nat
  | .verification _ _ _ s => s
  | .selfVerification _ _ _ s => s
  | .selfVerificationNoMasterKey _ _ _ s => s

/-- Modelled from the spec: a flow identifier is a valid room ID when it
has the form `!...:host`, i.e. starts with `'!'` and contains a `':'`
(the test `decode_invalid_room_id` rejects `"test:localhost"` while the
fixture accepts `"!test:localhost"`). -/
def isValidRoomId (flow : List Nat) : Bool :=
  match flow with
  | [] => false
  | c :: rest => c == 33 && rest.any (· == 58)

/-- The raw byte string of an envelope (spec §4.6 byte layout): magic,
version `0x02`, mode, big-endian u16 flow length, flow identifier, the
two keys, then the secret. -/
def encodeBytes (q : QrVerification) : List Nat :=
  magic ++ [2, q.modeByte] ++
    [q.flowId.length / 256, q.flowId.length % 256] ++
    q.flowId ++ q.keyA ++ q.keyB ++ q.secret

/-- Modelled from the spec (§4.6 byte layout): serialize an envelope.
Fails with `TooLong` when the flow identifier does not fit the u16
length field. -/
def to_bytes (q : QrVerification) : Except EncodingError (List Nat) :=
  if q.flowId.length ≥ 65536 then
    .error .tooLong
  else
    .ok q.encodeBytes

/-- Modelled from the spec (§4.6) and the byte-level tests: parse an
envelope. The magic, version and mode bytes are checked as they are
read; then the flow length, flow identifier and the two 32-byte keys
are read (failing with `read` when the buffer is exhausted); the
remaining bytes are the secret, which must be at least 8 bytes; for
mode `0x00` the flow identifier must be a valid room ID. -/
def from_bytes (b : List Nat) : Except DecodingError QrVerification :=
  if b.take 6 ≠ magic then .error .header
  else
    match b.get? 6 with
    | none => .error (.read 6)
    | some v =>
      if v ≠ 2 then .error (.version v)
      else
        match b.get? 7 with
        | none => .error (.read 7)
        | some m =>
          if m > 2 then .error (.mode m)
          else
            match b.get? 8, b.get? 9 with
            | some hi, some lo =>
              let flowLen := hi * 256 + lo
              let rest := b.drop 10
              if rest.length < flowLen then .error (.read 10)
              else
                let flow := rest.take flowLen
                let rest := rest.drop flowLen
                if rest.length < 32 then .error (.read (10 + flowLen))
                else
                  let key_a := rest.take 32
                  let rest := rest.drop 32
                  if rest.length < 32 then .error (.read (10 + flowLen + 32))
                  else
                    let key_b := rest.take 32
                    let secret := rest.drop 32
                    if secret.length < 8 then .error (.sharedSecret secret.length)
                    else
                      match m with
                      | 0 =>
                        if isValidRoomId flow then
                          .ok (.verification flow key_a key_b secret)
                        else .error (.identifier flow)
                      | 1 => .ok (.selfVerification flow key_a key_b secret)
                      | _ => .ok (.selfVerificationNoMasterKey flow key_a key_b secret)
            | _, _ => .error (.read 8)

/-- An envelope is well-formed when its keys are 32 bytes, its secret is
at least 8 bytes, its flow identifier fits the u16 length field, and —
for mode `0x00` — the flow identifier is a valid room ID. -/
def Valid (q : QrVerification) : Prop :=
  q.keyA.length = 32 ∧ q.keyB.length = 32 ∧ 8 ≤ q.secret.length ∧
    q.flowId.length < 65536 ∧ (q.modeByte = 0 → isValidRoomId q.flowId = true)

instance (q : QrVerification) : Decidable (Valid q) := by
  unfold Valid; infer_instance

/-- The S4 fixture byte string:
`b"MATRIX\x02\x00\x00\x0f!test:localhost" + 32*A + 32*B + b"SECRETISLONGENOUGH"`. -/
def fixtureBytes : List Nat :=
  magic ++ [2, 0, 0, 15] ++
    (String.toList "!test:localhost").map Char.toNat ++
    List.replicate 32 65 ++ List.replicate 32 66 ++
    (String.toList "SECRETISLONGENOUGH").map Char.toNat

/-- The envelope value that the S4 fixture decodes to. -/
def fixtureValue : QrVerification :=
  .verification ((String.toList "!test:localhost").map Char.toNat)
    (List.replicate 32 65) (List.replicate 32 66)
    ((String.toList "SECRETISLONGENOUGH").map Char.toNat)

end QrVerification

/-! ## Device records, local trust and cross-signing trust

Embedded from `matrix_sdk_crypto/src/identities/device.rs`. The
`Arc`/atomic interior mutability of `deleted` and `trust_state` is
explicit state passing; `BTreeMap`s are association lists. -/

/-- Device key algorithms (the `DeviceKeyAlgorithm` identifier type). -/
inductive DeviceKeyAlgorithm where
  | ed25519 : DeviceKeyAlgorithm
  | curve25519 : DeviceKeyAlgorithm
  | signedCurve25519 : DeviceKeyAlgorithm
deriving DecidableEq, Repr

/-- The string name of a device key algorithm, as it appears in key ids
and in the `algorithms`/`device_keys` store tables. -/
def DeviceKeyAlgorithm.name : DeviceKeyAlgorithm → String
  | .ed25519 => "ed25519"
  | .curve25519 => "curve25519"
  | .signedCurve25519 => "signed_curve25519"

/-- `KeyAlgorithm::try_from(&str)`: parse an algorithm name; unknown
names are rejected. -/
def DeviceKeyAlgorithm.parse (s : String) : Option DeviceKeyAlgorithm :=
  if s = "ed25519" then some .ed25519
  else if s = "curve25519" then some .curve25519
  else if s = "signed_curve25519" then some .signedCurve25519
  else none

/-- A device key identifier: algorithm plus device id
(`DeviceKeyId::from_parts`). -/
structure DeviceKeyId where
  algorithm : DeviceKeyAlgorithm
  device_id : String
deriving DecidableEq, Repr

/-- `DeviceKeyId::from_parts`. -/
def DeviceKeyId.from_parts (a : DeviceKeyAlgorithm) (d : String) : DeviceKeyId :=
  ⟨a, d⟩

/-- `BTreeMap::get` on an association list. -/
def mapGet {α β : Type} [DecidableEq α] : List (α × β) → α → Option β
  | [], _ => none
  | (k', v) :: rest, k => if k' = k then some v else mapGet rest k

/-- The local trust state of a device (`LocalTrust`), with the
discriminant values of the source. -/
inductive LocalTrust where
  | Verified : LocalTrust
  | BlackListed : LocalTrust
  | Ignored : LocalTrust
  | Unset : LocalTrust
deriving DecidableEq, Repr

/-- The `as i64` cast of a `LocalTrust` value (discriminants 0..3),
used when the store persists the trust state. -/
def LocalTrust.toI64 : LocalTrust → Int
  | .Verified => 0
  | .BlackListed => 1
  | .Ignored => 2
  | .Unset => 3

/-- `impl From<i64> for LocalTrust`: 0..3 map to the four states and
anything else to `Unset`. -/
def LocalTrust.fromI64 (state : Int) : LocalTrust :=
  if state = 0 then .Verified
  else if state = 1 then .BlackListed
  else if state = 2 then .Ignored
  else .Unset

/-- `ReadOnlyDevice`: a device record. -/
structure ReadOnlyDevice where
  user_id : String
  device_id : String
  algorithms : List String
  keys : List (DeviceKeyId × String)
  signatures : List (String × List (DeviceKeyId × String))
  display_name : Option String
  deleted : Bool
  trust_state : LocalTrust
deriving DecidableEq, Repr

namespace ReadOnlyDevice

/-- `ReadOnlyDevice::new`: a fresh record with `deleted = false`. -/
def new (user_id device_id : String) (display_name : Option String)
    (trust_state : LocalTrust) (algorithms : List String)
    (keys : List (DeviceKeyId × String))
    (signatures : List (String × List (DeviceKeyId × String))) : ReadOnlyDevice :=
  { user_id, device_id, display_name, trust_state, signatures, algorithms,
    keys, deleted := false }

/-- `ReadOnlyDevice::get_key`. -/
def get_key (d : ReadOnlyDevice) (algorithm : DeviceKeyAlgorithm) : Option String :=
  mapGet d.keys (DeviceKeyId.from_parts algorithm d.device_id)

/-- `ReadOnlyDevice::local_trust_state`. -/
def local_trust_state (d : ReadOnlyDevice) : LocalTrust :=
  d.trust_state

/-- `ReadOnlyDevice::is_trusted`: locally marked as verified. -/
def is_trusted (d : ReadOnlyDevice) : Bool :=
  d.local_trust_state == .Verified

/-- `ReadOnlyDevice::is_blacklisted`. -/
def is_blacklisted (d : ReadOnlyDevice) : Bool :=
  d.local_trust_state == .BlackListed

/-- `ReadOnlyDevice::set_trust_state`. -/
def set_trust_state (d : ReadOnlyDevice) (state : LocalTrust) : ReadOnlyDevice :=
  { d with trust_state := state }

/-- `ReadOnlyDevice::mark_as_deleted`. -/
def mark_as_deleted (d : ReadOnlyDevice) : ReadOnlyDevice :=
  { d with deleted := true }

end ReadOnlyDevice

/-- Modelled from the spec: the other-user cross-signing identity
(`identities/user.rs` is not under `src/`). The trust evaluation reads
only whether `is_device_signed` succeeds. -/
structure OtherUserIdentity where
  /-- Whether this identity's self-signing key has signed the device
  (`is_device_signed(..).is_ok()`). -/
  device_signed : ReadOnlyDevice → Bool

/-- Modelled from the spec: our own cross-signing identity
(`identities/user.rs` is not under `src/`). The trust evaluation reads
whether the identity is verified, whether it has signed a given device
and whether it has signed another user's identity. -/
structure OwnUserIdentity where
  /-- `is_verified()`. -/
  verified : Bool
  /-- `is_device_signed(..).is_ok()`. -/
  device_signed : ReadOnlyDevice → Bool
  /-- `is_identity_signed(..).is_ok()`. -/
  identity_signed : OtherUserIdentity → Bool

/-- `UserIdentities`: our own identity or another user's. -/
inductive UserIdentities where
  | Own (i : OwnUserIdentity) : UserIdentities
  | Other (i : OtherUserIdentity) : UserIdentities

/-- `ReadOnlyDevice::trust_state(&self, own_identity, device_owner)`:
locally verified, or trusted through the cross-signing chain. (Named
`trustState` because the record field `trust_state` keeps the source's
field name.) -/
def ReadOnlyDevice.trustState (d : ReadOnlyDevice)
    (own_identity : Option OwnUserIdentity)
    (device_owner : Option UserIdentities) : Bool :=
  if d.is_trusted then
    true
  else
    own_identity.elim false fun o =>
      o.verified &&
        ((device_owner.map fun device_identity =>
          match device_identity with
          | .Own _ => o.device_signed d
          | .Other oi => o.identity_signed oi && oi.device_signed d).getD false)

/-! ## Device keys blobs and signature verification -/

/-- `SignatureError` (spec §7). -/
inductive SignatureError where
  | MissingSigningKey : SignatureError
  | BadSignature : SignatureError
  | CanonicalizationFailed : SignatureError
deriving DecidableEq, Repr

/-- The `unsigned` part of a device keys blob. -/
structure UnsignedDeviceInfo where
  device_display_name : Option String
deriving DecidableEq, Repr

/-- A `DeviceKeys` blob as uploaded by a device. -/
structure DeviceKeys where
  user_id : String
  device_id : String
  algorithms : List String
  keys : List (DeviceKeyId × String)
  signatures : List (String × List (DeviceKeyId × String))
  unsigned : UnsignedDeviceInfo
deriving DecidableEq, Repr

/-- Modelled from the spec: `Utility::verify_json` (the `olm` utility
module is not under `src/`) — Ed25519 verification of the canonical
JSON of a blob, given the claimed user id, the signing key id and the
public signing key. The blob stands for its JSON value. -/
def Verifier : Type :=
  String → DeviceKeyId → String → DeviceKeys → Except SignatureError Unit

/-- `ReadOnlyDevice::is_signed_by_device`: look up the device's own
Ed25519 key (failing with `MissingSigningKey`) and verify the blob's
signature with it. -/
def ReadOnlyDevice.is_signed_by_device (V : Verifier) (d : ReadOnlyDevice)
    (json : DeviceKeys) : Except SignatureError Unit :=
  match d.get_key .ed25519 with
  | none => .error .MissingSigningKey
  | some signing_key =>
    V d.user_id (DeviceKeyId.from_parts .ed25519 d.device_id) signing_key json

/-- `ReadOnlyDevice::verify_device_keys`. -/
def ReadOnlyDevice.verify_device_keys (V : Verifier) (d : ReadOnlyDevice)
    (device_keys : DeviceKeys) : Except SignatureError Unit :=
  d.is_signed_by_device V device_keys

/-- `ReadOnlyDevice::update_device`: verify the blob first; only on
success replace algorithms, keys, signatures and display name. -/
def ReadOnlyDevice.update_device (V : Verifier) (d : ReadOnlyDevice)
    (device_keys : DeviceKeys) : Except SignatureError ReadOnlyDevice :=
  match d.verify_device_keys V device_keys with
  | .error e => .error e
  | .ok _ =>
    .ok { d with
      algorithms := device_keys.algorithms,
      keys := device_keys.keys,
      signatures := device_keys.signatures,
      display_name := device_keys.unsigned.device_display_name }

/-- The `&mut self` view of `update_device`: the record after the call,
which is unchanged when verification fails. -/
def ReadOnlyDevice.update_device_state (V : Verifier) (d : ReadOnlyDevice)
    (device_keys : DeviceKeys) : ReadOnlyDevice :=
  match d.update_device V device_keys with
  | .error _ => d
  | .ok d2 => d2

/-- `impl TryFrom<&DeviceKeys> for ReadOnlyDevice`: build the record
from the blob, then verify the blob against the record's own Ed25519
key. -/
def ReadOnlyDevice.try_from (V : Verifier) (device_keys : DeviceKeys) :
    Except SignatureError ReadOnlyDevice :=
  let device : ReadOnlyDevice :=
    { user_id := device_keys.user_id,
      device_id := device_keys.device_id,
      algorithms := device_keys.algorithms,
      signatures := device_keys.signatures,
      keys := device_keys.keys,
      display_name := device_keys.unsigned.device_display_name,
      deleted := false,
      trust_state := .Unset }
  match device.verify_device_keys V device_keys with
  | .error e => .error e
  | .ok _ => .ok device

/-! ## The devices tables of the SQLite store

Embedded from `SqliteStore::save_device_helper`, `load_devices` and the
schema in `create_tables`: a device row stores account id, user id,
device id, display name and the trust state as an integer — there is no
column for the `deleted` flag — and its algorithm and key rows (the
`algorithms` and `device_keys` tables, joined here into the row they
reference). The store's own `Device` type is the crypto device record;
`Device::new` on load is `ReadOnlyDevice.new` (no signatures are
persisted). -/

/-- One device row joined with its `algorithms` and `device_keys` rows. -/
structure DeviceRow where
  id : Int
  account_id : Int
  user_id : String
  device_id : String
  display_name : Option String
  trust_state : Int
  algorithms : List String
  keys : List (String × String)
deriving DecidableEq, Repr

/-- The next fresh `INTEGER PRIMARY KEY` for a device row. -/
def nextDeviceId (rows : List DeviceRow) : Int :=
  (rows.map DeviceRow.id).foldr max 0 + 1

/-- `INSERT OR IGNORE INTO algorithms`: add each algorithm not already
present for the row. -/
def addAlgorithms (algs : List String) (cur : List String) : List String :=
  algs.foldl (fun acc a => if acc.contains a then acc else acc ++ [a]) cur

/-- `INSERT OR IGNORE INTO device_keys`: add each `(algorithm, key)`
pair whose algorithm is not already present for the row. -/
def addKeys (ks : List (String × String)) (cur : List (String × String)) :
    List (String × String) :=
  ks.foldl
    (fun acc p => if (acc.map Prod.fst).contains p.1 then acc else acc ++ [p])
    cur

/-- `SqliteStore::save_device_helper`: upsert the device row keyed on
`(account_id, user_id, device_id)` — updating only display name and
trust state on conflict — then look the row id up by `(user_id,
device_id)` and insert-or-ignore the algorithm and key rows. The
`deleted` flag is not stored. -/
def saveDeviceHelper (account_id : Int) (d : ReadOnlyDevice)
    (rows : List DeviceRow) : List DeviceRow :=
  let isKey : DeviceRow → Bool := fun r =>
    r.account_id == account_id && r.user_id == d.user_id && r.device_id == d.device_id
  let rows1 :=
    if rows.any isKey then
      rows.map fun r =>
        if isKey r then
          { r with display_name := d.display_name,
                   trust_state := d.trust_state.toI64 }
        else r
    else
      rows ++ [{ id := nextDeviceId rows, account_id,
                 user_id := d.user_id, device_id := d.device_id,
                 display_name := d.display_name,
                 trust_state := d.trust_state.toI64,
                 algorithms := [], keys := [] }]
  match rows1.find? fun r => r.user_id == d.user_id && r.device_id == d.device_id with
  | none => rows1
  | some row =>
    rows1.map fun r =>
      if r.id == row.id then
        { r with algorithms := addAlgorithms d.algorithms r.algorithms,
                 keys := addKeys
                   (d.keys.map fun p => (p.1.algorithm.name, p.2)) r.keys }
      else r

/-- `SqliteStore::load_devices`: rebuild the device records of an
account from their rows; key rows with unknown algorithms are skipped;
the loaded record carries no signatures, has `deleted = false` and its
trust state read back through `From<i64>`. -/
def loadDevices (account_id : Int) (rows : List DeviceRow) : List ReadOnlyDevice :=
  (rows.filter fun r => r.account_id == account_id).map fun r =>
    ReadOnlyDevice.new r.user_id r.device_id r.display_name
      (LocalTrust.fromI64 r.trust_state) r.algorithms
      (r.keys.filterMap fun p =>
        (DeviceKeyAlgorithm.parse p.1).map fun a =>
          (DeviceKeyId.from_parts a r.device_id, p.2))
      []

/-- A concrete device record (modelled on the source's test fixture
`device_keys()`), used as the concrete input of witnesses and
counterexamples. -/
def exDevice : ReadOnlyDevice :=
  ReadOnlyDevice.new "@example:localhost" "BNYQQWUMXO"
    (some "Alice's mobile phone") .Unset
    ["m.olm.v1.curve25519-aes-sha2", "m.megolm.v1.aes-sha2"]
    [(DeviceKeyId.from_parts .curve25519 "BNYQQWUMXO", "curvekey"),
     (DeviceKeyId.from_parts .ed25519 "BNYQQWUMXO", "edkey")]
    []

/-- A verifier that rejects every signature, standing for
`Utility::verify_json` on a blob whose self-signature was altered. -/
def badVerifier : Verifier := fun _ _ _ _ => .error .BadSignature

/-- A concrete device keys blob for the same device as `exDevice`. -/
def exDeviceKeys : DeviceKeys :=
  { user_id := "@example:localhost", device_id := "BNYQQWUMXO",
    algorithms := ["m.olm.v1.curve25519-aes-sha2"],
    keys := [(DeviceKeyId.from_parts .curve25519 "BNYQQWUMXO", "curvekey2"),
             (DeviceKeyId.from_parts .ed25519 "BNYQQWUMXO", "edkey2")],
    signatures := [("@example:localhost",
      [(DeviceKeyId.from_parts .ed25519 "BNYQQWUMXO", "sig")])],
    unsigned := ⟨some "Alice's work computer"⟩ }

/-! ## The salamander double-ratchet session shell

Embedded from `olm/salamander/session/mod.rs`. The `double_ratchet`
submodule it builds on is not under `src/`; its operations are modelled
from the spec (§4.2) as the abstract operations of a `RatchetModel`.
Encrypted wire bytes are modelled by their decoded shape (`WireMessage`
and `OlmMessage`): the spec's TLV encodings are injective, and the
session code only ever inspects messages through `decode()`. -/

namespace Salamander

/-- Modelled from the spec: the types and operations of the missing
`double_ratchet` submodule — active/inactive local ratchet halves, the
remote ratchet, and the DH/KDF operations the session shell calls. -/
structure RatchetModel where
  /-- Curve25519 public keys (prekey envelope fields). -/
  PublicKey : Type
  /-- A remote DH ratchet key as carried in a message. -/
  RatchetKey : Type
  /-- Ciphertext payload of an Olm message. -/
  Ciphertext : Type
  /-- The truncated MAC of an Olm message. -/
  Mac : Type
  /-- The triple-DH shared secret of the session initiator. -/
  Shared3DHSecret : Type
  /-- The triple-DH shared secret of the session responder. -/
  RemoteShared3DHSecret : Type
  /-- A root key. -/
  RootKey : Type
  /-- A receiving chain key. -/
  ChainKey : Type
  /-- An active local double ratchet (can encrypt). -/
  ActiveRatchet : Type
  /-- An inactive local double ratchet (after a remote ratchet step). -/
  InactiveRatchet : Type
  /-- The remote (receiving) double ratchet. -/
  RemoteRatchet : Type
  /-- `LocalDoubleRatchet::active`. -/
  active : Shared3DHSecret → ActiveRatchet
  /-- `RemoteShared3DHSecret::expand`. -/
  expand : RemoteShared3DHSecret → RootKey × ChainKey
  /-- `LocalDoubleRatchet::inactive`. -/
  inactive : RootKey → RatchetKey → InactiveRatchet
  /-- `RemoteDoubleRatchet::new`. -/
  remoteNew : RatchetKey → ChainKey → RemoteRatchet
  /-- `InactiveDoubleRatchet::activate`. -/
  activate : InactiveRatchet → ActiveRatchet
  /-- `ActiveDoubleRatchet::encrypt`: produce the message fields and the
  advanced ratchet. -/
  activeEncrypt : ActiveRatchet → List Nat → ActiveRatchet × RatchetKey × Ciphertext × Mac
  /-- `RemoteDoubleRatchet::belongs_to`. -/
  belongs_to : RemoteRatchet → RatchetKey → Bool
  /-- `LocalDoubleRatchet::advance` on the active variant. -/
  advanceActive : ActiveRatchet → RatchetKey → InactiveRatchet × RemoteRatchet
  /-- `LocalDoubleRatchet::advance` on the inactive variant. -/
  advanceInactive : InactiveRatchet → RatchetKey → InactiveRatchet × RemoteRatchet
  /-- `RemoteDoubleRatchet::decrypt`: plaintext plus advanced ratchet. -/
  remoteDecrypt : RemoteRatchet → RatchetKey → Ciphertext → Mac → List Nat × RemoteRatchet

variable {M : RatchetModel}

/-- A decoded Olm message: ratchet key, ciphertext and MAC, as produced
by `OlmMessage::decode()`. -/
structure OlmMessage (M : RatchetModel) where
  ratchet_key : M.RatchetKey
  ciphertext : M.Ciphertext
  mac : M.Mac

/-- The decoded shape of the bytes `Session::encrypt` returns: either a
prekey message wrapping the inner Olm message together with the one-time,
ephemeral and identity keys, or a plain Olm message. -/
inductive WireMessage (M : RatchetModel) where
  /-- `PrekeyMessage::from_parts(one_time_key, ephemeral_key,
  identity_key, message)`. -/
  | prekey (one_time_key ephemeral_key identity_key : M.PublicKey)
      (message : OlmMessage M) : WireMessage M
  /-- A plain Olm message. -/
  | olm (message : OlmMessage M) : WireMessage M

/-- Whether a wire message is a prekey message. -/
def WireMessage.isPrekey : WireMessage M → Bool
  | .prekey .. => true
  | .olm _ => false

/-- `SessionKeys`: the prekey envelope fields kept until the first
successful decryption. -/
structure SessionKeys (M : RatchetModel) where
  identity_key : M.PublicKey
  ephemeral_key : M.PublicKey
  one_time_key : M.PublicKey

/-- `LocalDoubleRatchet`. -/
inductive LocalDoubleRatchet (M : RatchetModel) where
  | Inactive (r : M.InactiveRatchet) : LocalDoubleRatchet M
  | Active (r : M.ActiveRatchet) : LocalDoubleRatchet M

/-- `LocalDoubleRatchet::advance`. -/
def LocalDoubleRatchet.advance : LocalDoubleRatchet M → M.RatchetKey →
    M.InactiveRatchet × M.RemoteRatchet
  | .Inactive r, k => M.advanceInactive r k
  | .Active r, k => M.advanceActive r k

/-- `Session`. -/
structure Session (M : RatchetModel) where
  session_keys : Option (SessionKeys M)
  sending_ratchet : LocalDoubleRatchet M
  receiving_ratchet : Option M.RemoteRatchet

/-- `Session::new`: the outbound session of the initiator; it holds the
prekey session keys and has no receiving ratchet yet. -/
def Session.new (M : RatchetModel) (shared_secret : M.Shared3DHSecret)
    (session_keys : SessionKeys M) : Session M :=
  { session_keys := some session_keys,
    sending_ratchet := .Active (M.active shared_secret),
    receiving_ratchet := none }

/-- `Session::new_remote`: the responder session. -/
def Session.new_remote (M : RatchetModel) (shared_secret : M.RemoteShared3DHSecret)
    (remote_ratchet_key : M.RatchetKey) : Session M :=
  let p := M.expand shared_secret
  { session_keys := none,
    sending_ratchet := .Inactive (M.inactive p.1 remote_ratchet_key),
    receiving_ratchet := some (M.remoteNew remote_ratchet_key p.2) }

/-- `Session::encrypt`: encrypt with the sending ratchet (activating an
inactive one first), and wrap the message as a prekey message exactly
when the prekey session keys are still present. -/
def Session.encrypt (s : Session M) (plaintext : List Nat) :
    WireMessage M × Session M :=
  let st : LocalDoubleRatchet M × OlmMessage M :=
    match s.sending_ratchet with
    | .Inactive r =>
      let q := M.activeEncrypt (M.activate r) plaintext
      (.Active q.1, ⟨q.2.1, q.2.2.1, q.2.2.2⟩)
    | .Active r =>
      let q := M.activeEncrypt r plaintext
      (.Active q.1, ⟨q.2.1, q.2.2.1, q.2.2.2⟩)
  let s' : Session M := { s with sending_ratchet := st.1 }
  match s.session_keys with
  | some sk =>
    (.prekey sk.one_time_key sk.ephemeral_key sk.identity_key st.2, s')
  | none => (.olm st.2, s')

/-- `Session::decrypt`: if the message's ratchet key does not belong to
the current receiving ratchet, perform a DH ratchet step (advancing the
sending ratchet, installing the new receiving ratchet and clearing the
prekey session keys); otherwise decrypt with the existing receiving
ratchet. The final `else` branch is the source's `todo!()`, represented
by `none`. -/
def Session.decrypt (s : Session M) (message : OlmMessage M) :
    Option (List Nat × Session M) :=
  if ¬ (s.receiving_ratchet.elim false fun r => M.belongs_to r message.ratchet_key) then
    let adv := s.sending_ratchet.advance message.ratchet_key
    let dec := M.remoteDecrypt adv.2 message.ratchet_key message.ciphertext message.mac
    some (dec.1,
      { session_keys := none,
        sending_ratchet := .Inactive adv.1,
        receiving_ratchet := some dec.2 })
  else
    match s.receiving_ratchet with
    | some remote_ratchet =>
      let dec := M.remoteDecrypt remote_ratchet message.ratchet_key
        message.ciphertext message.mac
      some (dec.1, { s with receiving_ratchet := some dec.2 })
    | none => none

/-- `Session::decrypt_prekey`: unwrap the prekey envelope and decrypt
the inner message; on a message that is not a prekey message the
source's `decode().unwrap()` panics, represented by `none`. -/
def Session.decrypt_prekey (s : Session M) (message : WireMessage M) :
    Option (List Nat × Session M) :=
  match message with
  | .prekey _ _ _ inner => s.decrypt inner
  | .olm _ => none

/-- One session-shell operation: an encrypt, or a successful decrypt or
prekey decrypt. -/
inductive Step (M : RatchetModel) : Session M → Session M → Prop where
  | enc (s : Session M) (pt : List Nat) : Step M s (s.encrypt pt).2
  | dec (s : Session M) (msg : OlmMessage M) (pt : List Nat) (t : Session M) :
      s.decrypt msg = some (pt, t) → Step M s t
  | decPre (s : Session M) (w : WireMessage M) (pt : List Nat) (t : Session M) :
      s.decrypt_prekey w = some (pt, t) → Step M s t

/-- Reachability by session-shell operations. -/
def Reaches (M : RatchetModel) : Session M → Session M → Prop :=
  Relation.ReflTransGen (Step M)

/-- Reachability by encrypt calls alone (no successful decryption yet). -/
inductive EncOnly (M : RatchetModel) : Session M → Session M → Prop where
  | refl (s : Session M) : EncOnly M s s
  | enc (s t : Session M) (pt : List Nat) :
      EncOnly M s t → EncOnly M s (t.encrypt pt).2

/-- The trivial ratchet model over unit types, on which the session
shell is executable. -/
def unitModel : RatchetModel where
  PublicKey := Unit
  RatchetKey := Unit
  Ciphertext := Unit
  Mac := Unit
  Shared3DHSecret := Unit
  RemoteShared3DHSecret := Unit
  RootKey := Unit
  ChainKey := Unit
  ActiveRatchet := Unit
  InactiveRatchet := Unit
  RemoteRatchet := Unit
  active := fun _ => ()
  expand := fun _ => ((), ())
  inactive := fun _ _ => ()
  remoteNew := fun _ _ => ()
  activate := fun _ => ()
  activeEncrypt := fun _ _ => ((), (), (), ())
  belongs_to := fun _ _ => true
  advanceActive := fun _ _ => ((), ())
  advanceInactive := fun _ _ => ((), ())
  remoteDecrypt := fun _ _ _ _ => ([], ())

/-- The shape invariant of a session: once a receiving ratchet exists,
the prekey session keys are gone. -/
def Inv (s : Session M) : Prop :=
  s.receiving_ratchet.isSome = true → s.session_keys = none

end Salamander

/-! ## The SQLite crypto store

Embedded from `src/crypto/store/sqlite.rs`. The SQLite tables are
association lists of rows, the in-memory caches (`memory_stores.rs` is
not under `src/`) are modelled from the spec as lists, and every store
operation is written in state-passing style `Store → result × Store` so
that partial mutation before an error is represented faithfully. The
olm `Account`/`Session` pickling (the `olm_rs` crate) is modelled from
the spec: a pickle is an opaque blob from which the pickled state is
recovered, represented by the serialized state itself; `Instant`s are
`Nat` timestamps, `Duration`s are `Nat`s, and `Instant::now()` is an
explicit `now` argument. -/

namespace Store

/-- `CryptoStoreError` (spec §7, `StoreError`). -/
inductive StoreError where
  | AccountUnset : StoreError
  | Io : StoreError
  | Corrupt : StoreError
  | Timeout : StoreError
  | SessionTimestamp : StoreError
deriving DecidableEq, Repr

/-- `olm_rs::PicklingMode`. -/
inductive PicklingMode where
  | unencrypted : PicklingMode
  | encrypted (key : String) : PicklingMode
deriving DecidableEq, Repr

/-- Modelled from the spec: an olm `Account` — the pickled state is its
serialized data plus the shared flag. -/
structure Account where
  data : String
  shared : Bool
deriving DecidableEq, Repr

/-- `Account::pickle`. -/
def Account.pickle (a : Account) (_mode : PicklingMode) : String := a.data

/-- `Account::from_pickle`. -/
def Account.from_pickle (pickle : String) (_mode : PicklingMode)
    (shared : Bool) : Account :=
  { data := pickle, shared }

/-- Modelled from the spec: an olm 1:1 `Session` as the store sees it —
its derived session id, the sender's Curve25519 key and its creation
and last-use `Instant`s. -/
structure Session where
  session_id : String
  sender_key : String
  creation_time : Nat
  last_use_time : Nat
deriving DecidableEq, Repr

/-- `Session::pickle`: the pickle determines the session state, hence
its session id. -/
def Session.pickle (s : Session) (_mode : PicklingMode) : String :=
  s.session_id

/-- `Session::from_pickle`. -/
def Session.from_pickle (pickle : String) (_mode : PicklingMode)
    (sender_key : String) (creation_time last_use_time : Nat) : Session :=
  { session_id := pickle, sender_key, creation_time, last_use_time }

/-- Modelled from the spec: an inbound Megolm group session as the
store sees it. -/
structure InboundGroupSession where
  session_id : String
  sender_key : String
  signing_key : String
  room_id : String
deriving DecidableEq, Repr

/-- `InboundGroupSession::pickle`. -/
def InboundGroupSession.pickle (s : InboundGroupSession)
    (_mode : PicklingMode) : String :=
  s.session_id

/-- `InboundGroupSession::from_pickle`. -/
def InboundGroupSession.from_pickle (pickle : String) (_mode : PicklingMode)
    (sender_key signing_key room_id : String) : InboundGroupSession :=
  { session_id := pickle, sender_key, signing_key, room_id }

/-- A row of the `accounts` table. -/
structure AccountRow where
  id : Int
  user_id : String
  device_id : String
  pickle : String
  shared : Bool
deriving DecidableEq, Repr

/-- A row of the `sessions` table; the time columns hold serialized
`Duration`s (elapsed times at save). -/
structure SessionRow where
  session_id : String
  account_id : Int
  creation_time : Nat
  last_use_time : Nat
  sender_key : String
  pickle : String
deriving DecidableEq, Repr

/-- A row of the `inbound_group_sessions` table. -/
structure GroupSessionRow where
  session_id : String
  account_id : Int
  sender_key : String
  signing_key : String
  room_id : String
  pickle : String
deriving DecidableEq, Repr

/-- The database: the four tables (the `algorithms` and `device_keys`
tables are joined into `DeviceRow`). -/
structure DB where
  accounts : List AccountRow
  sessions : List SessionRow
  group_sessions : List GroupSessionRow
  devices : List DeviceRow
deriving DecidableEq, Repr

/-- The empty database of a freshly created file. -/
def DB.empty : DB :=
  { accounts := [], sessions := [], group_sessions := [], devices := [] }

/-- `SqliteStore`. -/
structure SqliteStore where
  user_id : String
  device_id : String
  account_id : Option Int
  sessions : List (String × List Session)
  inbound_group_sessions : List InboundGroupSession
  devices : List ReadOnlyDevice
  tracked_users : List String
  db : DB
  pickle_passphrase : Option String
deriving DecidableEq, Repr

/-- `SqliteStore::open_helper` (and `open`/`open_with_passphrase`):
connect to the database at the path — carried here as its current
contents — with empty caches and no account selected. -/
def openStore (user_id device_id : String) (passphrase : Option String)
    (db : DB) : SqliteStore :=
  { user_id, device_id, account_id := none, sessions := [],
    inbound_group_sessions := [], devices := [], tracked_users := [],
    db, pickle_passphrase := passphrase }

/-- `SqliteStore::get_pickle_mode`. -/
def SqliteStore.get_pickle_mode (st : SqliteStore) : PicklingMode :=
  match st.pickle_passphrase with
  | some p => .encrypted p
  | none => .unencrypted

/-- `Instant::checked_sub` on `Nat` timestamps. -/
def checkedSub (now d : Nat) : Option Nat :=
  if d ≤ now then some (now - d) else none

/-- `rows.iter().map(..).collect::<Result<Vec<Session>>>()` in
`load_sessions_for`: rebuild each session from its row, failing with
`SessionTimestamp` when a stored duration exceeds the current instant. -/
def loadSessionRows (mode : PicklingMode) (now : Nat) :
    List SessionRow → Except StoreError (List Session)
  | [] => .ok []
  | r :: rest =>
    match checkedSub now r.creation_time with
    | none => .error .SessionTimestamp
    | some ct =>
      match checkedSub now r.last_use_time with
      | none => .error .SessionTimestamp
      | some lt =>
        match loadSessionRows mode now rest with
        | .error e => .error e
        | .ok tail =>
          .ok (Session.from_pickle r.pickle mode r.sender_key ct lt :: tail)

/-- `SqliteStore::load_sessions_for` (read-only). -/
def SqliteStore.load_sessions_for (st : SqliteStore) (now : Nat)
    (sender_key : String) : Except StoreError (List Session) :=
  match st.account_id with
  | none => .error .AccountUnset
  | some account_id =>
    loadSessionRows st.get_pickle_mode now
      (st.db.sessions.filter fun r =>
        r.account_id == account_id && r.sender_key == sender_key)

/-- `SessionStore::add` (modelled from the spec): push the session onto
its sender's entry, creating the entry if needed. -/
def sessionStoreAdd (cache : List (String × List Session)) (s : Session) :
    List (String × List Session) :=
  match mapGet cache s.sender_key with
  | some l => cache.map fun p => if p.1 = s.sender_key then (p.1, l ++ [s]) else p
  | none => cache ++ [(s.sender_key, [s])]

/-- `SessionStore::set_for_sender` (modelled from the spec). -/
def setForSender (cache : List (String × List Session)) (sender_key : String)
    (sessions : List Session) : List (String × List Session) :=
  match mapGet cache sender_key with
  | some _ => cache.map fun p => if p.1 = sender_key then (p.1, sessions) else p
  | none => cache ++ [(sender_key, sessions)]

/-- `SqliteStore::lazy_load_sessions`: when the cache has no entry for
the sender, load its sessions from the table and — when any exist —
install them in the cache. -/
def SqliteStore.lazy_load_sessions (st : SqliteStore) (now : Nat)
    (sender_key : String) : Except StoreError Unit × SqliteStore :=
  if (mapGet st.sessions sender_key).isSome then
    (.ok (), st)
  else
    match st.load_sessions_for now sender_key with
    | .error e => (.error e, st)
    | .ok sessions =>
      if sessions.isEmpty then (.ok (), st)
      else (.ok (), { st with sessions := setForSender st.sessions sender_key sessions })

/-- The next fresh `INTEGER PRIMARY KEY` for an account row. -/
def nextAccountId (rows : List AccountRow) : Int :=
  (rows.map AccountRow.id).foldr max 0 + 1

/-- `SqliteStore::save_account`: upsert the account row keyed on
`(user_id, device_id)` — keeping the row id on conflict — then select
the row id and remember it as the store's account id. -/
def SqliteStore.save_account (st : SqliteStore) (account : Account) :
    Except StoreError Unit × SqliteStore :=
  let pickle := account.pickle st.get_pickle_mode
  let isKey : AccountRow → Bool := fun r =>
    r.user_id == st.user_id && r.device_id == st.device_id
  let accounts :=
    if st.db.accounts.any isKey then
      st.db.accounts.map fun r =>
        if isKey r then { r with pickle, shared := account.shared } else r
    else
      st.db.accounts ++
        [{ id := nextAccountId st.db.accounts, user_id := st.user_id,
           device_id := st.device_id, pickle, shared := account.shared }]
  match accounts.find? isKey with
  | some row => (.ok (), { st with db.accounts := accounts, account_id := some row.id })
  | none => (.error .Corrupt, { st with db.accounts := accounts })

/-- `SqliteStore::load_inbound_group_sessions` (read-only). -/
def SqliteStore.load_inbound_group_sessions (st : SqliteStore) :
    Except StoreError (List InboundGroupSession) :=
  match st.account_id with
  | none => .error .AccountUnset
  | some account_id =>
    .ok ((st.db.group_sessions.filter fun r => r.account_id == account_id).map
      fun r => InboundGroupSession.from_pickle r.pickle st.get_pickle_mode
        r.sender_key r.signing_key r.room_id)

/-- `GroupSessionStore::add` (modelled from the spec): insert keyed on
`(room_id, sender_key, session_id)`; returns whether it was new. -/
def groupStoreAdd (cache : List InboundGroupSession)
    (s : InboundGroupSession) : Bool × List InboundGroupSession :=
  let same : InboundGroupSession → Bool := fun t =>
    t.room_id == s.room_id && t.sender_key == s.sender_key &&
      t.session_id == s.session_id
  if cache.any same then (false, cache.map fun t => if same t then s else t)
  else (true, cache ++ [s])

/-- `DeviceStore::add` (modelled from the spec): insert keyed on
`(user_id, device_id)`. -/
def deviceStoreAdd (cache : List ReadOnlyDevice) (d : ReadOnlyDevice) :
    List ReadOnlyDevice :=
  let same : ReadOnlyDevice → Bool := fun t =>
    t.user_id == d.user_id && t.device_id == d.device_id
  if cache.any same then cache.map fun t => if same t then d else t
  else cache ++ [d]

/-- `SqliteStore::load_account`: select the account row by `(user_id,
device_id)`; when present, remember its id, rebuild the account from
its pickle, add the account's group sessions to the cache and replace
the device cache with the account's devices. -/
def SqliteStore.load_account (st : SqliteStore) :
    Except StoreError (Option Account) × SqliteStore :=
  match st.db.accounts.find? fun r =>
      r.user_id == st.user_id && r.device_id == st.device_id with
  | none => (.ok none, st)
  | some row =>
    let st1 := { st with account_id := some row.id }
    let account := Account.from_pickle row.pickle st1.get_pickle_mode row.shared
    match st1.load_inbound_group_sessions with
    | .error e => (.error e, st1)
    | .ok group_sessions =>
      let cache := group_sessions.foldl (fun c s => (groupStoreAdd c s).2)
        st1.inbound_group_sessions
      let st2 := { st1 with inbound_group_sessions := cache }
      let st3 := { st2 with devices := loadDevices row.id st2.db.devices }
      (.ok (some account), st3)

/-- `SqliteStore::save_session`: lazily load the sender's sessions,
add the session to the cache, then — requiring an account — `REPLACE`
its row (keyed on the `session_id` primary key), storing the elapsed
times at the current instant. -/
def SqliteStore.save_session (st : SqliteStore) (now : Nat) (s : Session) :
    Except StoreError Unit × SqliteStore :=
  match st.lazy_load_sessions now s.sender_key with
  | (.error e, st1) => (.error e, st1)
  | (.ok _, st1) =>
    let st2 := { st1 with sessions := sessionStoreAdd st1.sessions s }
    match st2.account_id with
    | none => (.error .AccountUnset, st2)
    | some account_id =>
      let row : SessionRow :=
        { session_id := s.session_id, account_id,
          creation_time := now - s.creation_time,
          last_use_time := now - s.last_use_time,
          sender_key := s.sender_key,
          pickle := s.pickle st2.get_pickle_mode }
      (.ok (), { st2 with db.sessions :=
        (st2.db.sessions.filter fun r => r.session_id ≠ s.session_id) ++ [row] })

/-- `SqliteStore::get_sessions`. -/
def SqliteStore.get_sessions (st : SqliteStore) (now : Nat)
    (sender_key : String) :
    Except StoreError (Option (List Session)) × SqliteStore :=
  match st.lazy_load_sessions now sender_key with
  | (.error e, st1) => (.error e, st1)
  | (.ok _, st1) => (.ok (mapGet st1.sessions sender_key), st1)

/-- `SqliteStore::save_inbound_group_session`: requires an account;
upsert the row keyed on `session_id` (updating only the pickle on
conflict), then add to the cache, returning whether it was new. -/
def SqliteStore.save_inbound_group_session (st : SqliteStore)
    (session : InboundGroupSession) : Except StoreError Bool × SqliteStore :=
  match st.account_id with
  | none => (.error .AccountUnset, st)
  | some account_id =>
    let pickle := session.pickle st.get_pickle_mode
    let rows :=
      if st.db.group_sessions.any fun r => r.session_id == session.session_id then
        st.db.group_sessions.map fun r =>
          if r.session_id == session.session_id then { r with pickle } else r
      else
        st.db.group_sessions ++
          [{ session_id := session.session_id, account_id,
             sender_key := session.sender_key,
             signing_key := session.signing_key,
             room_id := session.room_id, pickle }]
    let added := groupStoreAdd st.inbound_group_sessions session
    (.ok added.1,
      { st with
          db := { st.db with group_sessions := rows },
          inbound_group_sessions := added.2 })

/-- `SqliteStore::get_inbound_group_session` (cache only). -/
def SqliteStore.get_inbound_group_session (st : SqliteStore)
    (room_id sender_key session_id : String) :
    Except StoreError (Option InboundGroupSession) × SqliteStore :=
  (.ok (st.inbound_group_sessions.find? fun t =>
    t.room_id == room_id && t.sender_key == sender_key &&
      t.session_id == session_id), st)

/-- `SqliteStore::add_user_for_tracking` (in memory only; the source has
a TODO to persist it). -/
def SqliteStore.add_user_for_tracking (st : SqliteStore) (user : String) :
    Except StoreError Bool × SqliteStore :=
  if st.tracked_users.contains user then (.ok false, st)
  else (.ok true, { st with tracked_users := st.tracked_users ++ [user] })

/-- `SqliteStore::save_device`: add to the device cache first, then
persist through `save_device_helper` (which requires an account). -/
def SqliteStore.save_device (st : SqliteStore) (d : ReadOnlyDevice) :
    Except StoreError Unit × SqliteStore :=
  let st1 := { st with devices := deviceStoreAdd st.devices d }
  match st1.account_id with
  | none => (.error .AccountUnset, st1)
  | some account_id =>
    (.ok (), { st1 with db.devices := saveDeviceHelper account_id d st1.db.devices })

/-- `SqliteStore::get_device` (cache only). -/
def SqliteStore.get_device (st : SqliteStore) (user_id device_id : String) :
    Except StoreError (Option ReadOnlyDevice) × SqliteStore :=
  (.ok (st.devices.find? fun t =>
    t.user_id == user_id && t.device_id == device_id), st)

/-- `SqliteStore::delete_device` is `todo!()`: the call panics for every
argument and never produces a `Result`; the panic is the outer `none`. -/
def SqliteStore.delete_device (_st : SqliteStore) (_d : ReadOnlyDevice) :
    Option (Except StoreError Unit × SqliteStore) :=
  none

/-- The store states reachable from `open` by the store's operations. -/
inductive StoreReach : SqliteStore → Prop where
  | opened (user_id device_id : String) (pp : Option String) (db : DB) :
      StoreReach (openStore user_id device_id pp db)
  | load_account (st : SqliteStore) :
      StoreReach st → StoreReach st.load_account.2
  | save_account (st : SqliteStore) (a : Account) :
      StoreReach st → StoreReach (st.save_account a).2
  | save_session (st : SqliteStore) (now : Nat) (s : Session) :
      StoreReach st → StoreReach (st.save_session now s).2
  | get_sessions (st : SqliteStore) (now : Nat) (k : String) :
      StoreReach st → StoreReach (st.get_sessions now k).2
  | save_inbound_group_session (st : SqliteStore) (s : InboundGroupSession) :
      StoreReach st → StoreReach (st.save_inbound_group_session s).2
  | get_inbound_group_session (st : SqliteStore) (r k i : String) :
      StoreReach st → StoreReach (st.get_inbound_group_session r k i).2
  | add_user_for_tracking (st : SqliteStore) (u : String) :
      StoreReach st → StoreReach (st.add_user_for_tracking u).2
  | save_device (st : SqliteStore) (d : ReadOnlyDevice) :
      StoreReach st → StoreReach (st.save_device d).2
  | get_device (st : SqliteStore) (u i : String) :
      StoreReach st → StoreReach (st.get_device u i).2

end Store

-- DEFS-ANCHOR

namespace QrVerification

lemma take6_magic (l : List Nat) : (magic ++ l).take 6 = magic := rfl

lemma get6 (m hi lo : Nat) (r : List Nat) :
    (magic ++ 2 :: m :: hi :: lo :: r).get? 6 = some 2 := rfl

lemma get7 (m hi lo : Nat) (r : List Nat) :
    (magic ++ 2 :: m :: hi :: lo :: r).get? 7 = some m := rfl

lemma get8 (m hi lo : Nat) (r : List Nat) :
    (magic ++ 2 :: m :: hi :: lo :: r).get? 8 = some hi := rfl

lemma get9 (m hi lo : Nat) (r : List Nat) :
    (magic ++ 2 :: m :: hi :: lo :: r).get? 9 = some lo := rfl

lemma drop10 (m hi lo : Nat) (r : List Nat) :
    (magic ++ 2 :: m :: hi :: lo :: r).drop 10 = r := rfl

/-- Decoding the encoded byte string of a well-formed envelope body:
reading back the magic, version, mode, length field, flow identifier,
keys and secret recovers each field, leaving only the per-mode flow
identifier check. -/
lemma from_bytes_encoded (m : Nat) (flow ka kb sec : List Nat)
    (hm : m ≤ 2) (hka : ka.length = 32) (hkb : kb.length = 32)
    (hsec : 8 ≤ sec.length) :
    from_bytes (magic ++ 2 :: m :: flow.length / 256 :: flow.length % 256 ::
        (flow ++ ka ++ kb ++ sec)) =
      match m with
      | 0 =>
        if isValidRoomId flow then .ok (.verification flow ka kb sec)
        else .error (.identifier flow)
      | 1 => .ok (.selfVerification flow ka kb sec)
      | _ => .ok (.selfVerificationNoMasterKey flow ka kb sec) := by
  have hlen : flow.length / 256 * 256 + flow.length % 256 = flow.length :=
    Nat.div_add_mod' _ _
  have d0 : List.take flow.length (flow ++ (ka ++ (kb ++ sec))) = flow :=
    List.take_left' rfl
  have d0' : List.drop flow.length (flow ++ (ka ++ (kb ++ sec))) = ka ++ (kb ++ sec) :=
    List.drop_left' rfl
  have d1 : List.take 32 (ka ++ (kb ++ sec)) = ka := List.take_left' hka
  have d2 : List.take 32 (List.drop 32 (ka ++ (kb ++ sec))) = kb := by
    rw [List.drop_left' hka, List.take_left' hkb]
  have d3 : List.drop 64 (ka ++ (kb ++ sec)) = sec := by
    have h64 : (64 : Nat) = 32 + 32 := rfl
    rw [h64, ← List.drop_drop, List.drop_left' hka, List.drop_left' hkb]
  have d3' : List.drop 32 (List.drop 32 (ka ++ (kb ++ sec))) = sec := by
    rw [List.drop_drop]; exact d3
  interval_cases m <;>
    simp only [from_bytes, take6_magic, get6, get7, get8, get9, drop10, hlen,
      ne_eq, List.append_assoc, List.length_append, List.length_drop,
      d0, d0', d1, d2, d3'] <;>
    rw [if_neg (by simp), if_neg (by simp), if_neg (by omega), if_neg (by omega),
      if_neg (by omega), if_neg (by omega), if_neg (by omega)]

/-- The encoded byte string, re-associated into the shape read by the
decoder. -/
lemma encodeBytes_eq (q : QrVerification) :
    q.encodeBytes = magic ++ 2 :: q.modeByte :: q.flowId.length / 256 ::
      q.flowId.length % 256 :: (q.flowId ++ q.keyA ++ q.keyB ++ q.secret) := by
  simp [encodeBytes, List.append_assoc]

end QrVerification

open QrVerification in
/-- C2: for every well-formed QR verification envelope (mode in
`{0x00, 0x01, 0x02}`, 32-byte keys, secret of at least 8 bytes, flow
identifier fitting the u16 length field and — for mode 0 — a valid room
ID), encoding succeeds and decoding the encoded byte string yields the
envelope again; in particular the S4 fixture byte string decodes to the
stated `Verification` value and re-encoding it produces the identical
byte string. -/
theorem claim_C2_qr_roundtrip :
    (∀ q : QrVerification, Valid q →
      to_bytes q = .ok q.encodeBytes ∧ from_bytes q.encodeBytes = .ok q) ∧
    from_bytes fixtureBytes = .ok fixtureValue ∧
    to_bytes fixtureValue = .ok fixtureBytes := by
  refine ⟨?_, rfl, rfl⟩
  rintro q ⟨h1, h2, h3, h4, h5⟩
  constructor
  · rw [to_bytes, if_neg (by omega)]
  · rw [encodeBytes_eq]
    cases q with
    | verification f a b s =>
      simp only [flowId, keyA, keyB, secret, modeByte] at h1 h2 h3 h5 ⊢
      rw [from_bytes_encoded 0 f a b s (by omega) h1 h2 h3]
      simp only [h5 trivial, if_true]
    | selfVerification f a b s =>
      simp only [flowId, keyA, keyB, secret, modeByte] at h1 h2 h3 ⊢
      exact from_bytes_encoded 1 f a b s (by omega) h1 h2 h3
    | selfVerificationNoMasterKey f a b s =>
      simp only [flowId, keyA, keyB, secret, modeByte] at h1 h2 h3 ⊢
      exact from_bytes_encoded 2 f a b s (by omega) h1 h2 h3

open QrVerification in
/-- C2 witness: the round-trip theorem applied to the S4 fixture value,
whose well-formedness is decided by evaluation. -/
theorem claim_C2_qr_roundtrip_witness :
    to_bytes fixtureValue = .ok fixtureValue.encodeBytes ∧
    from_bytes fixtureValue.encodeBytes = .ok fixtureValue :=
  claim_C2_qr_roundtrip.1 fixtureValue (by decide)

open QrVerification in
/-- C8: every byte string whose first six bytes are the magic `"MATRIX"`
and whose seventh byte is `0x01` decodes to the error `Version(1)`; in
particular the 8-byte input `b"MATRIX\x01\x03"` does. -/
theorem claim_C8_version_error :
    (∀ b : List Nat, b.take 6 = magic → b.get? 6 = some 1 →
      from_bytes b = .error (.version 1)) ∧
    from_bytes (magic ++ [1, 3]) = .error (.version 1) := by
  refine ⟨?_, rfl⟩
  intro b h6 h7
  rw [from_bytes, if_neg (by simp [h6]), h7]
  rfl

open QrVerification in
/-- C8 witness: the version-error theorem applied to the 7-byte input
`b"MATRIX\x01"`, which has a seventh byte but no eighth. -/
theorem claim_C8_version_error_witness :
    from_bytes (magic ++ [1]) = .error (.version 1) :=
  claim_C8_version_error.1 (magic ++ [1]) rfl rfl


/-!  ## Claims about device records and trust -/

/-- C1: `trust_state` is true iff the local trust is `Verified`, or the
own identity is present and verified and the cross-signing chain to the
device closes (through the own identity for own devices, through the
owner identity otherwise); absent identities give false. Setting local
trust to `Verified` makes `trust_state` true, also after persisting the
device to the store and reloading it. -/
theorem claim_C1_trust_state :
    ∀ (d : ReadOnlyDevice) (o : Option OwnUserIdentity) (u : Option UserIdentities),
      (d.trustState o u =
        ((d.local_trust_state == .Verified) ||
          (match o, u with
           | some oi, some (.Own _) => oi.verified && oi.device_signed d
           | some oi, some (.Other other) =>
             oi.verified && (oi.identity_signed other && other.device_signed d)
           | _, _ => false))) ∧
      (d.set_trust_state .Verified).trustState o u = true ∧
      ∀ aid : Int,
        (loadDevices aid (saveDeviceHelper aid (d.set_trust_state .Verified) [])).map
          (fun d2 => d2.trustState o u) = [true] := by
  intro d o u
  refine ⟨?_, ?_, ?_⟩
  · unfold ReadOnlyDevice.trustState
    by_cases h : d.is_trusted
    · have h' : (d.local_trust_state == LocalTrust.Verified) = true := h
      simp [h, h']
    · have h' : (d.local_trust_state == LocalTrust.Verified) = false := by
        simpa [ReadOnlyDevice.is_trusted] using h
      cases o with
      | none => simp [h, h']
      | some oi =>
        cases u with
        | none => simp [h, h']
        | some ui => cases ui <;> simp [h, h']
  · simp [ReadOnlyDevice.trustState, ReadOnlyDevice.is_trusted,
      ReadOnlyDevice.set_trust_state, ReadOnlyDevice.local_trust_state]
  · intro aid
    simp [loadDevices, saveDeviceHelper, ReadOnlyDevice.set_trust_state,
      ReadOnlyDevice.new, LocalTrust.toI64, LocalTrust.fromI64,
      ReadOnlyDevice.trustState, ReadOnlyDevice.is_trusted,
      ReadOnlyDevice.local_trust_state, List.find?]

/-- C3: when the self-signature of a device keys blob does not verify
(the verifier returns `BadSignature` on the blob under the device's own
Ed25519 key), `update_device` fails with `BadSignature` and leaves the
record unchanged, and `try_from` fails with `BadSignature`. -/
theorem claim_C3_bad_signature :
    ∀ (V : Verifier) (d : ReadOnlyDevice) (dk : DeviceKeys) (k k' : String),
      (d.get_key .ed25519 = some k →
        V d.user_id (DeviceKeyId.from_parts .ed25519 d.device_id) k dk =
          .error .BadSignature →
        d.update_device V dk = .error .BadSignature ∧
          d.update_device_state V dk = d) ∧
      (mapGet dk.keys (DeviceKeyId.from_parts .ed25519 dk.device_id) = some k' →
        V dk.user_id (DeviceKeyId.from_parts .ed25519 dk.device_id) k' dk =
          .error .BadSignature →
        ReadOnlyDevice.try_from V dk = .error .BadSignature) := by
  intro V d dk k k'
  constructor
  · intro hk hv
    have hverify : d.verify_device_keys V dk = .error .BadSignature := by
      unfold ReadOnlyDevice.verify_device_keys ReadOnlyDevice.is_signed_by_device
      rw [hk]
      exact hv
    constructor
    · unfold ReadOnlyDevice.update_device
      rw [hverify]
    · unfold ReadOnlyDevice.update_device_state ReadOnlyDevice.update_device
      rw [hverify]
  · intro hk hv
    unfold ReadOnlyDevice.try_from ReadOnlyDevice.verify_device_keys
      ReadOnlyDevice.is_signed_by_device ReadOnlyDevice.get_key
    simp only [hk, hv]

/-- C3 witness: the bad-signature theorem applied to a concrete device,
blob and all-rejecting verifier. -/
theorem claim_C3_bad_signature_witness :
    (exDevice.update_device badVerifier exDeviceKeys = .error .BadSignature ∧
      exDevice.update_device_state badVerifier exDeviceKeys = exDevice) ∧
    ReadOnlyDevice.try_from badVerifier exDeviceKeys = .error .BadSignature :=
  ⟨(claim_C3_bad_signature badVerifier exDevice exDeviceKeys "edkey" "edkey2").1
      (by decide) rfl,
   (claim_C3_bad_signature badVerifier exDevice exDeviceKeys "edkey" "edkey2").2
      (by decide) rfl⟩

/-- C4 counterexample: a device marked as deleted, saved through
`save_device_helper` and reloaded through `load_devices`, comes back
with `deleted = false` — the devices schema has no deleted column, so
the claim that the flag survives a store reload is false. -/
theorem claim_C4_deleted_counterexample :
    (loadDevices 1 (saveDeviceHelper 1 exDevice.mark_as_deleted [])).map
        ReadOnlyDevice.deleted = [false] ∧
      ¬ (loadDevices 1 (saveDeviceHelper 1 exDevice.mark_as_deleted [])).map
          ReadOnlyDevice.deleted = [true] := by
  constructor
  · rfl
  · intro h
    rw [show (loadDevices 1 (saveDeviceHelper 1 exDevice.mark_as_deleted [])).map
        ReadOnlyDevice.deleted = [false] from rfl] at h
    simp at h

/-- C4 amended: `mark_as_deleted` makes `deleted` true, marking again is
idempotent, no record operation (`update_device`, `set_trust_state`)
resets it, but the sqlite store does not persist the flag: every device
loaded from the store has `deleted = false`. -/
theorem claim_C4_deleted_amended :
    (∀ d : ReadOnlyDevice, d.mark_as_deleted.deleted = true) ∧
    (∀ d : ReadOnlyDevice, d.mark_as_deleted.mark_as_deleted = d.mark_as_deleted) ∧
    (∀ (V : Verifier) (d : ReadOnlyDevice) (dk : DeviceKeys),
      (d.update_device_state V dk).deleted = d.deleted) ∧
    (∀ (d : ReadOnlyDevice) (t : LocalTrust),
      (d.set_trust_state t).deleted = d.deleted) ∧
    (∀ (aid : Int) (rows : List DeviceRow) (d' : ReadOnlyDevice),
      d' ∈ loadDevices aid rows → d'.deleted = false) := by
  refine ⟨fun d => rfl, fun d => rfl, ?_, fun d t => rfl, ?_⟩
  · intro V d dk
    unfold ReadOnlyDevice.update_device_state
    cases h : d.update_device V dk with
    | error e => rfl
    | ok d2 =>
      unfold ReadOnlyDevice.update_device at h
      cases h2 : d.verify_device_keys V dk with
      | error e => rw [h2] at h; cases h
      | ok u => rw [h2] at h; cases h; rfl
  · intro aid rows d' hm
    simp only [loadDevices, List.mem_map] at hm
    obtain ⟨r, _, hr⟩ := hm
    rw [← hr]
    rfl

/-- C4 witness: the amended theorem applied to a concrete stored row;
the device loaded from it is not deleted. -/
theorem claim_C4_deleted_amended_witness :
    (ReadOnlyDevice.new "@u" "D" none (LocalTrust.fromI64 3) [] [] []).deleted = false :=
  claim_C4_deleted_amended.2.2.2.2 1
    [{ id := 1, account_id := 1, user_id := "@u", device_id := "D",
       display_name := none, trust_state := 3, algorithms := [], keys := [] }]
    _ (by decide)


/-! ## Claims about the salamander session -/

namespace Salamander

variable {M : RatchetModel}

lemma encrypt_session_keys (s : Session M) (pt : List Nat) :
    ((s.encrypt pt).2).session_keys = s.session_keys := by
  unfold Session.encrypt
  cases s.sending_ratchet <;> cases s.session_keys <;> rfl

lemma encrypt_receiving_ratchet (s : Session M) (pt : List Nat) :
    ((s.encrypt pt).2).receiving_ratchet = s.receiving_ratchet := by
  unfold Session.encrypt
  cases s.sending_ratchet <;> cases s.session_keys <;> rfl

lemma encrypt_prekey_of_some (s : Session M) (sk : SessionKeys M)
    (h : s.session_keys = some sk) (pt : List Nat) :
    ((s.encrypt pt).1).isPrekey = true := by
  unfold Session.encrypt
  cases hs : s.sending_ratchet <;> rw [h] <;> rfl

lemma encrypt_olm_of_none (s : Session M)
    (h : s.session_keys = none) (pt : List Nat) :
    ((s.encrypt pt).1).isPrekey = false := by
  unfold Session.encrypt
  cases hs : s.sending_ratchet <;> rw [h] <;> rfl

lemma decrypt_clears_keys (s : Session M) (msg : OlmMessage M)
    (pt : List Nat) (t : Session M) (h : s.decrypt msg = some (pt, t))
    (hinv : Inv s) : t.session_keys = none := by
  unfold Session.decrypt at h
  by_cases hc : s.receiving_ratchet.elim false fun r => M.belongs_to r msg.ratchet_key
  · rw [if_neg (by simpa using hc)] at h
    cases hr : s.receiving_ratchet with
    | none => rw [hr] at hc; simp at hc
    | some r =>
      rw [hr] at h
      have hkeys : s.session_keys = none := hinv (by rw [hr]; rfl)
      simp only [Option.some.injEq, Prod.mk.injEq] at h
      rw [← h.2]
      exact hkeys
  · rw [if_pos (by simpa using hc)] at h
    simp only [Option.some.injEq, Prod.mk.injEq] at h
    rw [← h.2]

lemma decrypt_preserves_none (s : Session M) (msg : OlmMessage M)
    (pt : List Nat) (t : Session M) (h : s.decrypt msg = some (pt, t))
    (hk : s.session_keys = none) : t.session_keys = none := by
  unfold Session.decrypt at h
  by_cases hc : s.receiving_ratchet.elim false fun r => M.belongs_to r msg.ratchet_key
  · rw [if_neg (by simpa using hc)] at h
    cases hr : s.receiving_ratchet with
    | none => rw [hr] at hc; simp at hc
    | some r =>
      rw [hr] at h
      simp only [Option.some.injEq, Prod.mk.injEq] at h
      rw [← h.2]
      exact hk
  · rw [if_pos (by simpa using hc)] at h
    simp only [Option.some.injEq, Prod.mk.injEq] at h
    rw [← h.2]

lemma decrypt_prekey_clears_keys (s : Session M) (w : WireMessage M)
    (pt : List Nat) (t : Session M) (h : s.decrypt_prekey w = some (pt, t))
    (hinv : Inv s) : t.session_keys = none := by
  cases w with
  | prekey a b c inner => exact decrypt_clears_keys s inner pt t h hinv
  | olm _ => exact absurd h (by simp [Session.decrypt_prekey])

lemma step_inv (s t : Session M) (h : Step M s t) (hinv : Inv s) : Inv t := by
  cases h with
  | enc pt =>
    intro hr
    rw [encrypt_receiving_ratchet] at hr
    rw [encrypt_session_keys]
    exact hinv hr
  | dec msg pt t h => intro _; exact decrypt_clears_keys s msg pt t h hinv
  | decPre w pt t h => intro _; exact decrypt_prekey_clears_keys s w pt t h hinv

lemma reaches_inv (s t : Session M) (h : Reaches M s t) (hinv : Inv s) : Inv t := by
  induction h with
  | refl => exact hinv
  | tail _ hstep ih => exact step_inv _ _ hstep ih

lemma new_inv (ss : M.Shared3DHSecret) (sk : SessionKeys M) :
    Inv (Session.new M ss sk) := by
  intro h
  simp [Session.new] at h

lemma encOnly_keys (s t : Session M) (h : EncOnly M s t) :
    t.session_keys = s.session_keys := by
  induction h with
  | refl => rfl
  | enc t pt _ ih => rw [encrypt_session_keys]; exact ih

lemma step_preserves_none (s t : Session M) (h : Step M s t)
    (hk : s.session_keys = none) : t.session_keys = none := by
  cases h with
  | enc pt => rw [encrypt_session_keys]; exact hk
  | dec msg pt t h => exact decrypt_preserves_none s msg pt t h hk
  | decPre w pt t h =>
    cases w with
    | prekey a b c inner => exact decrypt_preserves_none s inner pt t h hk
    | olm _ => exact absurd h (by simp [Session.decrypt_prekey])

end Salamander

section
open Salamander

/-- C5: for a session created outbound by `Session::new`, every encrypt
before the first successful decryption produces a prekey message; any
successful `decrypt`/`decrypt_prekey` leaves the prekey session keys
cleared (`None`); and once cleared they stay cleared, so every later
encrypt produces a plain Olm message — the transition is one-way. -/
theorem claim_C5_prekey_transition :
    ∀ (M : RatchetModel) (ss : M.Shared3DHSecret) (sk : SessionKeys M),
      (∀ s : Session M, EncOnly M (Session.new M ss sk) s →
        ∀ pt, ((s.encrypt pt).1).isPrekey = true) ∧
      (∀ s : Session M, Reaches M (Session.new M ss sk) s →
        (∀ msg pt t, s.decrypt msg = some (pt, t) → t.session_keys = none) ∧
        (∀ w pt t, s.decrypt_prekey w = some (pt, t) → t.session_keys = none)) ∧
      (∀ s t : Session M, s.session_keys = none → Reaches M s t →
        t.session_keys = none ∧ ∀ pt, ((t.encrypt pt).1).isPrekey = false) := by
  intro M ss sk
  refine ⟨?_, ?_, ?_⟩
  · intro s h pt
    have hkeys : s.session_keys = some sk := by
      rw [encOnly_keys _ _ h]; rfl
    exact encrypt_prekey_of_some s sk hkeys pt
  · intro s h
    have hinv : Inv s := reaches_inv _ _ h (new_inv ss sk)
    exact ⟨fun msg pt t hd => decrypt_clears_keys s msg pt t hd hinv,
           fun w pt t hd => decrypt_prekey_clears_keys s w pt t hd hinv⟩
  · intro s t hk h
    have hnone : t.session_keys = none := by
      induction h with
      | refl => exact hk
      | tail _ hstep ih => exact step_preserves_none _ _ hstep ih
    exact ⟨hnone, fun pt => encrypt_olm_of_none t hnone pt⟩

/-- C5 witness: the theorem applied to the trivial ratchet model — a
fresh outbound session encrypts to a prekey message, and a responder
session (whose keys are `None`) encrypts to a plain Olm message. -/
theorem claim_C5_prekey_transition_witness :
    ((Session.new unitModel () ⟨(), (), ()⟩).encrypt []).1.isPrekey = true ∧
    ((Session.new_remote unitModel () ()).encrypt []).1.isPrekey = false :=
  ⟨(claim_C5_prekey_transition unitModel () ⟨(), (), ()⟩).1 _ (EncOnly.refl _) [],
   ((claim_C5_prekey_transition unitModel () ⟨(), (), ()⟩).2.2
      (Session.new_remote unitModel () ()) _ rfl Relation.ReflTransGen.refl).2 []⟩

/-- C10: the trailing `todo!()` branch of `Session::decrypt` is
unreachable — when the incoming ratchet key belongs to the current
receiving ratchet, that ratchet exists, so decrypt always takes the
DH-ratchet-step branch or the existing-ratchet branch. -/
theorem claim_C10_decrypt_no_todo :
    ∀ (M : RatchetModel) (s : Session M) (msg : OlmMessage M),
      (s.decrypt msg).isSome = true := by
  intro M s msg
  unfold Session.decrypt
  by_cases hc : s.receiving_ratchet.elim false fun r => M.belongs_to r msg.ratchet_key
  · rw [if_neg (by simpa using hc)]
    cases hr : s.receiving_ratchet with
    | none => rw [hr] at hc; simp at hc
    | some r => rfl
  · rw [if_pos (by simpa using hc)]
    rfl

end


/-! ## Claims about the SQLite store -/

namespace Store

lemma lazy_load_of_unset (st : SqliteStore) (now : Nat) (k : String)
    (ha : st.account_id = none) (hc : st.sessions = []) :
    st.lazy_load_sessions now k = (.error .AccountUnset, st) := by
  unfold SqliteStore.lazy_load_sessions SqliteStore.load_sessions_for
  rw [hc, ha]
  rfl

lemma save_session_of_unset (st : SqliteStore) (now : Nat) (s : Session)
    (ha : st.account_id = none) (hc : st.sessions = []) :
    st.save_session now s = (.error .AccountUnset, st) := by
  unfold SqliteStore.save_session
  rw [lazy_load_of_unset st now s.sender_key ha hc]

lemma get_sessions_of_unset (st : SqliteStore) (now : Nat) (k : String)
    (ha : st.account_id = none) (hc : st.sessions = []) :
    st.get_sessions now k = (.error .AccountUnset, st) := by
  unfold SqliteStore.get_sessions
  rw [lazy_load_of_unset st now k ha hc]

lemma lazy_load_account_id (st : SqliteStore) (now : Nat) (k : String) :
    (st.lazy_load_sessions now k).2.account_id = st.account_id := by
  unfold SqliteStore.lazy_load_sessions
  split
  · rfl
  · split
    · rfl
    · split
      · rfl
      · rfl

lemma save_session_account_id (st : SqliteStore) (now : Nat) (s : Session) :
    (st.save_session now s).2.account_id = st.account_id := by
  unfold SqliteStore.save_session
  split
  next e st1 heq =>
    have := lazy_load_account_id st now s.sender_key
    rw [heq] at this
    exact this
  next u st1 heq =>
    have h1 : st1.account_id = st.account_id := by
      have := lazy_load_account_id st now s.sender_key
      rw [heq] at this
      exact this
    dsimp only
    cases hac : st1.account_id with
    | none => simp only [hac]; rw [← h1, hac]
    | some aid => simp only [hac]; rw [← h1, hac]

lemma get_sessions_account_id (st : SqliteStore) (now : Nat) (k : String) :
    (st.get_sessions now k).2.account_id = st.account_id := by
  unfold SqliteStore.get_sessions
  split
  next e st1 heq =>
    have := lazy_load_account_id st now k
    rw [heq] at this
    exact this
  next u st1 heq =>
    have := lazy_load_account_id st now k
    rw [heq] at this
    exact this

/-- While no account row has been selected, the session cache is empty. -/
lemma reach_unset_cache_empty (st : SqliteStore) (h : StoreReach st)
    (ha : st.account_id = none) : st.sessions = [] := by
  induction h with
  | opened u d pp db => rfl
  | load_account st h ih =>
    revert ha
    unfold SqliteStore.load_account
    split
    · exact ih
    · dsimp only
      simp only [SqliteStore.load_inbound_group_sessions]
      intro ha
      simp at ha
  | save_account st a h ih =>
    revert ha
    unfold SqliteStore.save_account
    dsimp only
    split
    · intro ha; cases ha
    · exact ih
  | save_session st now s h ih =>
    by_cases hb : st.account_id = none
    · rw [save_session_of_unset st now s hb (ih hb)]
      exact ih hb
    · exact absurd (save_session_account_id st now s ▸ ha) hb
  | get_sessions st now k h ih =>
    by_cases hb : st.account_id = none
    · rw [get_sessions_of_unset st now k hb (ih hb)]
      exact ih hb
    · exact absurd (get_sessions_account_id st now k ▸ ha) hb
  | save_inbound_group_session st s h ih =>
    revert ha
    unfold SqliteStore.save_inbound_group_session
    dsimp only
    split
    · exact ih
    · rename_i aid heq
      intro ha
      rw [heq] at ha
      cases ha
  | get_inbound_group_session st r k i h ih => exact ih ha
  | add_user_for_tracking st u h ih =>
    revert ha
    unfold SqliteStore.add_user_for_tracking
    split
    · exact ih
    · exact ih
  | save_device st d h ih =>
    revert ha
    unfold SqliteStore.save_device
    dsimp only
    split
    · exact ih
    · rename_i aid heq
      intro ha
      rw [heq] at ha
      cases ha
  | get_device st u i h ih => exact ih ha

end Store

section
open Store

/-- C7: on every reachable store in which no account has been saved or
loaded, `save_session` fails with `AccountUnset` and the store —
session cache and sessions table included — is unchanged. -/
theorem claim_C7_save_session_account_unset :
    ∀ (st : SqliteStore), StoreReach st → st.account_id = none →
      ∀ (now : Nat) (s : Session),
        (st.save_session now s).1 = .error .AccountUnset ∧
        (st.save_session now s).2 = st := by
  intro st h ha now s
  have hc := reach_unset_cache_empty st h ha
  rw [save_session_of_unset st now s ha hc]
  exact ⟨rfl, rfl⟩

/-- C7 witness: the theorem applied to a freshly opened store on the
empty database. -/
theorem claim_C7_save_session_account_unset_witness :
    ((openStore "@example:localhost" "DEVICEID" none DB.empty).save_session 0
        { session_id := "sid", sender_key := "K", creation_time := 0,
          last_use_time := 0 }).1 = .error .AccountUnset ∧
    ((openStore "@example:localhost" "DEVICEID" none DB.empty).save_session 0
        { session_id := "sid", sender_key := "K", creation_time := 0,
          last_use_time := 0 }).2 =
      openStore "@example:localhost" "DEVICEID" none DB.empty :=
  claim_C7_save_session_account_unset _
    (StoreReach.opened "@example:localhost" "DEVICEID" none DB.empty) rfl 0
    { session_id := "sid", sender_key := "K", creation_time := 0,
      last_use_time := 0 }

/-- C9: `SqliteStore::delete_device` is unimplemented (`todo!()`): for
every device argument the call panics — the outer `none` — and never
returns a `Result`. -/
theorem claim_C9_delete_device_todo :
    ∀ (st : SqliteStore) (d : ReadOnlyDevice),
      st.delete_device d = none :=
  fun _ _ => rfl

end

section
open Store

/-- C6: open a store on an empty database, save the account and a
session with sender key K, close, reopen a store on the same database
with the same user and device ids, load the account; then
`get_sessions(K)` returns exactly the one saved session, equal to it by
session id. The instants bound the reopen time so the stored elapsed
durations are subtractable. -/
theorem claim_C6_store_reload :
    ∀ (u d : String) (pp : Option String) (a : Account) (s : Session)
      (n1 n2 : Nat),
      n1 - s.creation_time ≤ n2 → n1 - s.last_use_time ≤ n2 →
      (let st1 := ((openStore u d pp DB.empty).save_account a).2
       let st2 := (st1.save_session n1 s).2
       let st4 := (openStore u d pp st2.db).load_account.2
       (st4.get_sessions n2 s.sender_key).1.map
         (Option.map (List.map Session.session_id))) = .ok (some [s.session_id]) := by
  intro u d pp a s n1 n2 hc hl
  simp only [openStore, SqliteStore.save_account, SqliteStore.save_session,
    SqliteStore.lazy_load_sessions, SqliteStore.load_sessions_for,
    SqliteStore.get_sessions, SqliteStore.load_account,
    SqliteStore.load_inbound_group_sessions, SqliteStore.get_pickle_mode,
    loadSessionRows, sessionStoreAdd, setForSender, mapGet, nextAccountId,
    checkedSub, DB.empty, Account.pickle, Session.pickle, Session.from_pickle,
    loadDevices, groupStoreAdd, List.find?, List.filter, List.any,
    List.isEmpty, List.foldr, List.map, List.foldl, beq_self_eq_true,
    Bool.and_self, List.append_nil, List.nil_append]
  simp [hc, hl]
  simp [mapGet, Except.map, Session.session_id]

end

section
open Store

/-- C6 witness: the reload theorem applied to concrete ids, account,
session and instants. -/
theorem claim_C6_store_reload_witness :
    (let st1 := ((openStore "@example:localhost" "DEVICEID" none
      DB.empty).save_account (Account.mk "acc" false)).2
    let st2 := (st1.save_session 5 (Session.mk "sid" "K" 2 3)).2
    let st4 := (openStore "@example:localhost" "DEVICEID" none
      st2.db).load_account.2
    (st4.get_sessions 7 "K").1.map
      (Option.map (List.map Session.session_id))) = .ok (some ["sid"]) :=
  claim_C6_store_reload "@example:localhost" "DEVICEID" none
    (Account.mk "acc" false) (Session.mk "sid" "K" 2 3) 5 7
    (by decide) (by decide)

end

end MatrixSdk
